import Mathlib

/-!
# Verification of the anki-drive-sdk binary codec layer

Shallow embedding of `src/advertisement.rs` and `src/protocol.rs`.

Conventions of the embedding:
* byte buffers are `List Nat`, each entry the value of one `u8` (a write of a
  machine `u8` value stores `v % 256`);
* `scroll::Endian` is the two-valued `Endian` type and every read/write of a
  multi-byte scalar takes it explicitly, as in the source;
* fallible operations return `Except String`, carrying the source's error
  message strings; an out-of-bounds `gread`/`gwrite` carries a distinct
  message from the explicit size checks;
* `f32` fields are modelled by their 32-bit IEEE-754 bit pattern (a `Nat`
  below `2^32`): the codec only moves the four raw bytes, never interprets
  them, so the byte-level behaviour is exactly preserved;
* `i8`/`i16` fields are `Int`, written as their two's-complement pattern and
  read back by reinterpreting the unsigned value.
-/

inductive Endian where
  | be : Endian
  | le : Endian
deriving DecidableEq

instance {ε α : Type} [DecidableEq ε] [DecidableEq α] :
    DecidableEq (Except ε α)
  | .error a, .error b =>
    if h : a = b then .isTrue (by rw [h]) else .isFalse (by simp [h])
  | .error _, .ok _ => .isFalse (by simp)
  | .ok _, .error _ => .isFalse (by simp)
  | .ok a, .ok b =>
    if h : a = b then .isTrue (by rw [h]) else .isFalse (by simp [h])

/-- The `scroll` `gread_with::<u8>`: one byte at `off`, new offset `off + 1`. -/
def readU8 (data : List Nat) (off : Nat) : Except String (Nat × Nat) :=
  if off + 1 ≤ data.length then .ok (data.getD off 0, off + 1)
  else .error ("gread out of bounds")

/-- The `scroll` `gread_with::<u16>` with the given endianness. -/
def readU16 (data : List Nat) (off : Nat) (e : Endian) : Except String (Nat × Nat) :=
  if off + 2 ≤ data.length then
    match e with
    | .be => .ok (data.getD off 0 * 256 + data.getD (off + 1) 0, off + 2)
    | .le => .ok (data.getD (off + 1) 0 * 256 + data.getD off 0, off + 2)
  else .error ("gread out of bounds")

/-- The `scroll` `gread_with::<u32>` with the given endianness. -/
def readU32 (data : List Nat) (off : Nat) (e : Endian) : Except String (Nat × Nat) :=
  if off + 4 ≤ data.length then
    match e with
    | .be => .ok (((data.getD off 0 * 256 + data.getD (off + 1) 0) * 256 +
        data.getD (off + 2) 0) * 256 + data.getD (off + 3) 0, off + 4)
    | .le => .ok (((data.getD (off + 3) 0 * 256 + data.getD (off + 2) 0) * 256 +
        data.getD (off + 1) 0) * 256 + data.getD off 0, off + 4)
  else .error ("gread out of bounds")

/-- The `scroll` `gread_with::<&[u8]>` with a length context: `n` raw bytes. -/
def readBytes (data : List Nat) (off n : Nat) : Except String (List Nat × Nat) :=
  if off + n ≤ data.length then .ok ((data.drop off).take n, off + n)
  else .error ("gread out of bounds")

/-- Reinterpret an unsigned byte as the Rust `i8` it patterns. -/
def toI8 (b : Nat) : Int :=
  if b < 128 then (b : Int) else (b : Int) - 256

/-- Reinterpret an unsigned 16-bit value as the Rust `i16` it patterns. -/
def toI16 (v : Nat) : Int :=
  if v < 32768 then (v : Int) else (v : Int) - 65536

/-- Little/big-endian byte pair of a `u16` value. -/
def u16Bytes (v : Nat) (e : Endian) : List Nat :=
  match e with
  | .be => [v / 256 % 256, v % 256]
  | .le => [v % 256, v / 256 % 256]

/-- Little/big-endian byte quadruple of a `u32` value. -/
def u32Bytes (v : Nat) (e : Endian) : List Nat :=
  match e with
  | .be => [v / 16777216 % 256, v / 65536 % 256, v / 256 % 256, v % 256]
  | .le => [v % 256, v / 256 % 256, v / 65536 % 256, v / 16777216 % 256]

/-- Two's-complement byte pair of an `i16` value. -/
def i16Bytes (v : Int) (e : Endian) : List Nat :=
  u16Bytes (v % 65536).toNat e

/-- A UTF-8 continuation byte (`0x80..=0xBF`). -/
def utf8Cont (b : Nat) : Bool :=
  0x80 ≤ b && b ≤ 0xBF

/-- Rust `str::from_utf8` validity on a byte sequence (RFC 3629: shortest
forms only, no surrogates, maximum U+10FFFF). -/
def utf8Valid : List Nat → Bool
  | [] => true
  | b :: rest =>
    if b ≤ 0x7F then utf8Valid rest
    else if 0xC2 ≤ b && b ≤ 0xDF then
      match rest with
      | c :: r => utf8Cont c && utf8Valid r
      | [] => false
    else if b = 0xE0 then
      match rest with
      | c :: d :: r => (0xA0 ≤ c && c ≤ 0xBF) && utf8Cont d && utf8Valid r
      | _ => false
    else if (0xE1 ≤ b && b ≤ 0xEC) || b = 0xEE || b = 0xEF then
      match rest with
      | c :: d :: r => utf8Cont c && utf8Cont d && utf8Valid r
      | _ => false
    else if b = 0xED then
      match rest with
      | c :: d :: r => (0x80 ≤ c && c ≤ 0x9F) && utf8Cont d && utf8Valid r
      | _ => false
    else if b = 0xF0 then
      match rest with
      | c :: d :: f :: r => (0x90 ≤ c && c ≤ 0xBF) && utf8Cont d && utf8Cont f && utf8Valid r
      | _ => false
    else if 0xF1 ≤ b && b ≤ 0xF3 then
      match rest with
      | c :: d :: f :: r => utf8Cont c && utf8Cont d && utf8Cont f && utf8Valid r
      | _ => false
    else if b = 0xF4 then
      match rest with
      | c :: d :: f :: r => (0x80 ≤ c && c ≤ 0x8F) && utf8Cont d && utf8Cont f && utf8Valid r
      | _ => false
    else false

/-- The `scroll` `gread_with::<&str>` with `StrCtx::Length n`: `n` raw bytes that
must form valid UTF-8. -/
def readStr (data : List Nat) (off n : Nat) : Except String (List Nat × Nat) :=
  if off + n ≤ data.length then
    let bytes := (data.drop off).take n
    if utf8Valid bytes then .ok (bytes, off + n)
    else .error ("invalid utf8")
  else .error ("gread out of bounds")

/-! ## Advertisement codec (`src/advertisement.rs`, decode-only) -/

/-- The `AnkiVehicleAdvLocalName`: the `name` field is the 13 UTF-8 bytes the
source retains as a `&str`. -/
structure AnkiVehicleAdvLocalName where
  state : Nat
  version : Nat
  reserved : List Nat
  name : List Nat
deriving DecidableEq

def ANKI_VEHICLE_ADV_LOCAL_NAME_SIZE : Nat := 21

/-- The `AnkiVehicleAdvLocalName::try_from_ctx`. The source guards
`data.len() < ANKI_VEHICLE_ADV_LOCAL_NAME_SIZE` (not an equality check). -/
def decodeAdvLocalName (data : List Nat) (e : Endian) :
    Except String (AnkiVehicleAdvLocalName × Nat) := do
  if data.length < ANKI_VEHICLE_ADV_LOCAL_NAME_SIZE then
    .error ("Incorrect num of bytes")
  else
    let (state, o1) ← readU8 data 0
    let (version, o2) ← readU16 data o1 e
    let (reserved, o3) ← readBytes data o2 5
    let (name, o4) ← readStr data o3 13
    .ok ({ state, version, reserved, name }, o4)

structure AnkiVehicleAdvMfgData where
  identifier : Nat
  model_id : Nat
  reserved : Nat
  product_id : Nat
deriving DecidableEq

def ANKI_VEHICLE_ADV_MFG_DATA_SIZE : Nat := 8

/-- The `AnkiVehicleAdvMfgData::try_from_ctx`. The source guards
`data.len() < ANKI_VEHICLE_ADV_MFG_DATA_SIZE` (not an equality check). -/
def decodeAdvMfgData (data : List Nat) (e : Endian) :
    Except String (AnkiVehicleAdvMfgData × Nat) := do
  if data.length < ANKI_VEHICLE_ADV_MFG_DATA_SIZE then
    .error ("Incorrect num of bytes")
  else
    let (identifier, o1) ← readU32 data 0 e
    let (model_id, o2) ← readU8 data o1
    let (reserved, o3) ← readU8 data o2
    let (product_id, o4) ← readU16 data o3 e
    .ok ({ identifier, model_id, reserved, product_id }, o4)

structure AnkiVehicleAdv where
  flags : Nat
  tx_power : Nat
  mfg_data : AnkiVehicleAdvMfgData
  local_name : AnkiVehicleAdvLocalName
  service_id : List Nat
deriving DecidableEq

def ANKI_VEHICLE_ADV_SIZE : Nat :=
  2 + ANKI_VEHICLE_ADV_MFG_DATA_SIZE + ANKI_VEHICLE_ADV_LOCAL_NAME_SIZE + 16

/-- The `AnkiVehicleAdv::try_from_ctx`: exact 47-byte check, then the two
sub-decoders on the remaining slice (as `gread_with` passes `&data[offset..]`),
then the 16-byte service id. -/
def decodeAdv (data : List Nat) (e : Endian) :
    Except String (AnkiVehicleAdv × Nat) := do
  if data.length ≠ ANKI_VEHICLE_ADV_SIZE then
    .error ("Incorrect num of bytes")
  else
    let (flags, o1) ← readU8 data 0
    let (tx_power, o2) ← readU8 data o1
    let (mfg_data, n1) ← decodeAdvMfgData (data.drop o2) e
    let o3 := o2 + n1
    let (local_name, n2) ← decodeAdvLocalName (data.drop o3) e
    let o4 := o3 + n2
    let (service_id, o5) ← readBytes data o4 16
    .ok ({ flags, tx_power, mfg_data, local_name, service_id }, o5)

/-! ## Message protocol (`src/protocol.rs`) -/

def ANKI_VEHICLE_MSG_MAX_SIZE : Nat := 20
def ANKI_VEHICLE_MSG_PAYLOAD_MAX_SIZE : Nat := 18
def ANKI_VEHICLE_MSG_BASE_SIZE : Nat := 2

/-- The `AnkiVehicleMsgType` (`#[non_exhaustive]`, `repr(u8)`). -/
inductive AnkiVehicleMsgType where
  | Unknown
  | C2VDisconnect
  | C2CPingRequest
  | V2CPingResponse
  | C2VVersionRequest
  | V2CVersionResponse
  | C2VBatteryLevelRequest
  | V2CBatteryLevelResponse
  | C2VSetLights
  | C2VSetSpeed
  | C2VChangeLane
  | C2VCancelLaneChange
  | V2CLocalisationPositionUpdate
  | V2CLocalisationTransitionUpdate
  | V2CLocalisationIntersectionUpdate
  | V2CVehicleDelocalized
  | C2VSetOffsetFromRoadCentre
  | V2COffsetFromRoadCentreUpdate
  | C2VTurn
  | C2VLightsPattern
  | C2VSetConfigParams
  | C2VSDKMode
deriving DecidableEq

/-- The `IntoPrimitive`: each variant's discriminant. -/
def msgTypeToByte : AnkiVehicleMsgType → Nat
  | .Unknown => 0x0
  | .C2VDisconnect => 0x0d
  | .C2CPingRequest => 0x16
  | .V2CPingResponse => 0x17
  | .C2VVersionRequest => 0x18
  | .V2CVersionResponse => 0x19
  | .C2VBatteryLevelRequest => 0x1a
  | .V2CBatteryLevelResponse => 0x1b
  | .C2VSetLights => 0x1d
  | .C2VSetSpeed => 0x24
  | .C2VChangeLane => 0x25
  | .C2VCancelLaneChange => 0x26
  | .V2CLocalisationPositionUpdate => 0x27
  | .V2CLocalisationTransitionUpdate => 0x29
  | .V2CLocalisationIntersectionUpdate => 0x2a
  | .V2CVehicleDelocalized => 0x2b
  | .C2VSetOffsetFromRoadCentre => 0x2c
  | .V2COffsetFromRoadCentreUpdate => 0x2d
  | .C2VTurn => 0x32
  | .C2VLightsPattern => 0x33
  | .C2VSetConfigParams => 0x45
  | .C2VSDKMode => 0x90

/-- The `TryFromPrimitive` followed by the `unwrap_or_else(|_| Unknown)` every
decode site applies: a total byte-to-tag mapping. -/
def msgTypeFromByte (b : Nat) : AnkiVehicleMsgType :=
  if b = 0x0 then .Unknown
  else if b = 0x0d then .C2VDisconnect
  else if b = 0x16 then .C2CPingRequest
  else if b = 0x17 then .V2CPingResponse
  else if b = 0x18 then .C2VVersionRequest
  else if b = 0x19 then .V2CVersionResponse
  else if b = 0x1a then .C2VBatteryLevelRequest
  else if b = 0x1b then .V2CBatteryLevelResponse
  else if b = 0x1d then .C2VSetLights
  else if b = 0x24 then .C2VSetSpeed
  else if b = 0x25 then .C2VChangeLane
  else if b = 0x26 then .C2VCancelLaneChange
  else if b = 0x27 then .V2CLocalisationPositionUpdate
  else if b = 0x29 then .V2CLocalisationTransitionUpdate
  else if b = 0x2a then .V2CLocalisationIntersectionUpdate
  else if b = 0x2b then .V2CVehicleDelocalized
  else if b = 0x2c then .C2VSetOffsetFromRoadCentre
  else if b = 0x2d then .V2COffsetFromRoadCentreUpdate
  else if b = 0x32 then .C2VTurn
  else if b = 0x33 then .C2VLightsPattern
  else if b = 0x45 then .C2VSetConfigParams
  else if b = 0x90 then .C2VSDKMode
  else .Unknown

/-- The discriminants `AnkiVehicleMsgType` enumerates. -/
def knownMsgTypeCodes : List Nat :=
  [0x0, 0x0d, 0x16, 0x17, 0x18, 0x19, 0x1a, 0x1b, 0x1d, 0x24, 0x25, 0x26,
   0x27, 0x29, 0x2a, 0x2b, 0x2c, 0x2d, 0x32, 0x33, 0x45, 0x90]

/-- Generic message envelope `AnkiVehicleMsg`. -/
structure AnkiVehicleMsg where
  size : Nat
  msg_id : AnkiVehicleMsgType
  payload : List Nat
deriving DecidableEq

/-- The `AnkiVehicleMsg::try_from_ctx`: max-size guard, `size` and `msg_id`
bytes, then the remaining `data.len() - 2` bytes as payload when the buffer
exceeds the two-byte header. -/
def decodeMsg (data : List Nat) (_e : Endian) :
    Except String (AnkiVehicleMsg × Nat) := do
  if data.length > ANKI_VEHICLE_MSG_MAX_SIZE then
    .error ("Incorrect num of bytes")
  else
    let (size, o1) ← readU8 data 0
    let (idByte, o2) ← readU8 data o1
    let msg_id := msgTypeFromByte idByte
    if data.length > ANKI_VEHICLE_MSG_BASE_SIZE then
      let (payload, o3) ← readBytes data o2 (data.length - 2)
      .ok ({ size, msg_id, payload }, o3)
    else
      .ok ({ size, msg_id, payload := [] }, o2)

/-- The `AnkiVehicleMsg::try_into_ctx`: destination must hold exactly header +
payload; writes `size`, the tag byte and the payload (both `u8` writes are
endian-independent, the payload bytes are copied verbatim). -/
def encodeMsg (m : AnkiVehicleMsg) (dest : List Nat) (_e : Endian) :
    Except String (List Nat × Nat) :=
  if dest.length ≠ ANKI_VEHICLE_MSG_BASE_SIZE + m.payload.length then
    .error ("Incorrect size of byte array for anki vehicle message")
  else
    .ok (m.size % 256 :: msgTypeToByte m.msg_id :: m.payload,
      2 + m.payload.length)

/-! ### Concrete message structs and codecs -/

structure AnkiVehicleMsgVersionResponse where
  size : Nat
  msg_id : AnkiVehicleMsgType
  version : Nat
deriving DecidableEq

def ANKI_VEHICLE_MSG_VERSION_RESPONSE_SIZE : Nat := 4

/-- The `AnkiVehicleMsgVersionResponse::try_from_ctx`. -/
def decodeVersionResponse (data : List Nat) (e : Endian) :
    Except String (AnkiVehicleMsgVersionResponse × Nat) := do
  if data.length ≠ ANKI_VEHICLE_MSG_VERSION_RESPONSE_SIZE then
    .error ("Incorrect num of bytes")
  else
    let (size, o1) ← readU8 data 0
    let (idByte, o2) ← readU8 data o1
    let (version, o3) ← readU16 data o2 e
    .ok ({ size, msg_id := msgTypeFromByte idByte, version }, o3)

structure AnkiVehicleMsgBatteryLevelResponse where
  size : Nat
  msg_id : AnkiVehicleMsgType
  battery_level : Nat
deriving DecidableEq

def ANKI_VEHICLE_MSG_BATTERY_LEVEL_RESPONSE_SIZE : Nat := 4

/-- The `AnkiVehicleMsgBatteryLevelResponse::try_from_ctx`. -/
def decodeBatteryLevelResponse (data : List Nat) (e : Endian) :
    Except String (AnkiVehicleMsgBatteryLevelResponse × Nat) := do
  if data.length ≠ ANKI_VEHICLE_MSG_BATTERY_LEVEL_RESPONSE_SIZE then
    .error ("Incorrect num of bytes")
  else
    let (size, o1) ← readU8 data 0
    let (idByte, o2) ← readU8 data o1
    let (battery_level, o3) ← readU16 data o2 e
    .ok ({ size, msg_id := msgTypeFromByte idByte, battery_level }, o3)

structure AnkiVehicleMsgSdkMode where
  size : Nat
  msg_id : AnkiVehicleMsgType
  on_ : Nat
  flags : Nat
deriving DecidableEq

def ANKI_VEHICLE_MSG_SDK_MODE_SIZE : Nat := 4

/-- The `AnkiVehicleMsgSdkMode::try_into_ctx`. The source's guard compares
against `ANKI_VEHICLE_MSG_BATTERY_LEVEL_RESPONSE_SIZE` (both constants are
4, so the guard coincides with the type's own size constant). -/
def encodeSdkMode (m : AnkiVehicleMsgSdkMode) (dest : List Nat) (_e : Endian) :
    Except String (List Nat × Nat) :=
  if dest.length ≠ ANKI_VEHICLE_MSG_BATTERY_LEVEL_RESPONSE_SIZE then
    .error ("Not enough space available in byte array")
  else
    .ok ([m.size % 256, msgTypeToByte m.msg_id, m.on_ % 256, m.flags % 256]
      ++ dest.drop 4, 4)

structure AnkiVehicleMsgSetSpeed where
  size : Nat
  msg_id : AnkiVehicleMsgType
  speed_mm_per_sec : Int
  accel_mm_per_sec2 : Int
  respect_road_piece_speed_limit : Nat
deriving DecidableEq

def ANKI_VEHICLE_MSG_SET_SPEED_SIZE : Nat := 7

/-- The `AnkiVehicleMsgSetSpeed::try_into_ctx`. -/
def encodeSetSpeed (m : AnkiVehicleMsgSetSpeed) (dest : List Nat) (e : Endian) :
    Except String (List Nat × Nat) :=
  if dest.length ≠ ANKI_VEHICLE_MSG_SET_SPEED_SIZE then
    .error ("Not enough space available in byte array")
  else
    .ok (([m.size % 256, msgTypeToByte m.msg_id]
      ++ i16Bytes m.speed_mm_per_sec e
      ++ i16Bytes m.accel_mm_per_sec2 e
      ++ [m.respect_road_piece_speed_limit % 256]) ++ dest.drop 7, 7)

inductive VehicleTurn where
  | None
  | Left
  | Right
  | UTurn
  | UTurnJump
deriving DecidableEq

def vehicleTurnToByte : VehicleTurn → Nat
  | .None => 0
  | .Left => 1
  | .Right => 2
  | .UTurn => 3
  | .UTurnJump => 4

inductive VehicleTurnTrigger where
  | Immediate
  | Intersection
deriving DecidableEq

def vehicleTurnTriggerToByte : VehicleTurnTrigger → Nat
  | .Immediate => 0
  | .Intersection => 1

structure AnkiVehicleMsgTurn where
  size : Nat
  msg_id : AnkiVehicleMsgType
  turn_type : VehicleTurn
  trigger : VehicleTurnTrigger
deriving DecidableEq

def ANKI_VEHICLE_MSG_TURN_SIZE : Nat := 4

/-- The `AnkiVehicleMsgTurn::try_into_ctx` (the `IntoPrimitive` conversions are
infallible, so the `unwrap_or_else` fallbacks never fire). -/
def encodeTurn (m : AnkiVehicleMsgTurn) (dest : List Nat) (_e : Endian) :
    Except String (List Nat × Nat) :=
  if dest.length ≠ ANKI_VEHICLE_MSG_TURN_SIZE then
    .error ("Not enough space available in byte array")
  else
    .ok ([m.size % 256, msgTypeToByte m.msg_id, vehicleTurnToByte m.turn_type,
      vehicleTurnTriggerToByte m.trigger] ++ dest.drop 4, 4)

/-- The `offset_mm : f32` is carried as its 32-bit pattern. -/
structure AnkiVehicleMsgSetOffsetFromRoadCentre where
  size : Nat
  msg_id : AnkiVehicleMsgType
  offset_mm : Nat
deriving DecidableEq

def ANKI_VEHICLE_MSG_SET_OFFSET_FROM_ROAD_CENTRE_SIZE : Nat := 6

/-- The `AnkiVehicleMsgSetOffsetFromRoadCentre::try_into_ctx`. -/
def encodeSetOffsetFromRoadCentre (m : AnkiVehicleMsgSetOffsetFromRoadCentre)
    (dest : List Nat) (e : Endian) : Except String (List Nat × Nat) :=
  if dest.length ≠ ANKI_VEHICLE_MSG_SET_OFFSET_FROM_ROAD_CENTRE_SIZE then
    .error ("Not enough space available in byte array")
  else
    .ok (([m.size % 256, msgTypeToByte m.msg_id]
      ++ u32Bytes m.offset_mm e) ++ dest.drop 6, 6)

/-- The `offset_from_road_centre_mm : f32` is carried as its 32-bit pattern. -/
structure AnkiVehicleMsgChangeLane where
  size : Nat
  msg_id : AnkiVehicleMsgType
  horizontal_speed_mm_per_sec : Nat
  horizontal_accel_mm_per_sec2 : Nat
  offset_from_road_centre_mm : Nat
  hop_intent : Nat
  tag : Nat
deriving DecidableEq

def ANKI_VEHICLE_MSG_CHANGE_LANE_SIZE : Nat := 12

/-- The `AnkiVehicleMsgChangeLane::try_into_ctx`. -/
def encodeChangeLane (m : AnkiVehicleMsgChangeLane) (dest : List Nat)
    (e : Endian) : Except String (List Nat × Nat) :=
  if dest.length ≠ ANKI_VEHICLE_MSG_CHANGE_LANE_SIZE then
    .error ("Not enough space available in byte array")
  else
    .ok (([m.size % 256, msgTypeToByte m.msg_id]
      ++ u16Bytes m.horizontal_speed_mm_per_sec e
      ++ u16Bytes m.horizontal_accel_mm_per_sec2 e
      ++ u32Bytes m.offset_from_road_centre_mm e
      ++ [m.hop_intent % 256, m.tag % 256]) ++ dest.drop 12, 12)

/-- The `offset_from_road_centre_mm : f32` is carried as its 32-bit pattern. -/
structure AnkiVehicleMsgLocalisationPositionUpdate where
  size : Nat
  msg_id : AnkiVehicleMsgType
  location_id : Nat
  road_piece_id : Nat
  offset_from_road_centre_mm : Nat
  speed_mm_per_sec : Nat
  parsing_flags : Nat
  last_recv_lane_change_cmd_id : Nat
  last_exec_lane_change_cmd_id : Nat
  last_desired_lane_change_speed_mm_per_sec : Nat
  last_desired_speed_mm_per_sec : Nat
deriving DecidableEq

def ANKI_VEHICLE_MSG_LOCALISATION_POSITION_UPDATE_SIZE : Nat := 17

/-- The `AnkiVehicleMsgLocalisationPositionUpdate::try_from_ctx`. -/
def decodeLocalisationPositionUpdate (data : List Nat) (e : Endian) :
    Except String (AnkiVehicleMsgLocalisationPositionUpdate × Nat) := do
  if data.length ≠ ANKI_VEHICLE_MSG_LOCALISATION_POSITION_UPDATE_SIZE then
    .error ("Incorrect num of bytes")
  else
    let (size, o1) ← readU8 data 0
    let (idByte, o2) ← readU8 data o1
    let (location_id, o3) ← readU8 data o2
    let (road_piece_id, o4) ← readU8 data o3
    let (offset_from_road_centre_mm, o5) ← readU32 data o4 e
    let (speed_mm_per_sec, o6) ← readU16 data o5 e
    let (parsing_flags, o7) ← readU8 data o6
    let (last_recv_lane_change_cmd_id, o8) ← readU8 data o7
    let (last_exec_lane_change_cmd_id, o9) ← readU8 data o8
    let (last_desired_lane_change_speed_mm_per_sec, o10) ← readU16 data o9 e
    let (last_desired_speed_mm_per_sec, o11) ← readU16 data o10 e
    .ok ({ size, msg_id := msgTypeFromByte idByte, location_id, road_piece_id,
           offset_from_road_centre_mm, speed_mm_per_sec, parsing_flags,
           last_recv_lane_change_cmd_id, last_exec_lane_change_cmd_id,
           last_desired_lane_change_speed_mm_per_sec,
           last_desired_speed_mm_per_sec }, o11)

/-- The `offset_from_road_centre_mm : f32` is carried as its 32-bit pattern;
`i8` fields are `Int`. -/
structure AnkiVehicleMsgLocalisationTransitionUpdate where
  size : Nat
  msg_id : AnkiVehicleMsgType
  road_piece_idx : Int
  road_piece_idx_prev : Int
  offset_from_road_centre_mm : Nat
  last_recv_lane_change_id : Nat
  last_exec_lane_change_id : Nat
  last_desired_lane_change_speed_mm_per_sec : Nat
  ave_follow_line_drift_pixels : Int
  had_lane_change_activity : Nat
  uphill_counter : Nat
  downhill_counter : Nat
  left_wheel_dist_cm : Nat
  right_wheel_dist_cm : Nat
deriving DecidableEq

def ANKI_VEHICLE_MSG_LOCALISATION_TRANSITION_UPDATE_SIZE : Nat := 18

/-- The `AnkiVehicleMsgLocalisationTransitionUpdate::try_from_ctx`. -/
def decodeLocalisationTransitionUpdate (data : List Nat) (e : Endian) :
    Except String (AnkiVehicleMsgLocalisationTransitionUpdate × Nat) := do
  if data.length ≠ ANKI_VEHICLE_MSG_LOCALISATION_TRANSITION_UPDATE_SIZE then
    .error ("Incorrect num of bytes")
  else
    let (size, o1) ← readU8 data 0
    let (idByte, o2) ← readU8 data o1
    let (rpi, o3) ← readU8 data o2
    let (rpiPrev, o4) ← readU8 data o3
    let (offset_from_road_centre_mm, o5) ← readU32 data o4 e
    let (last_recv_lane_change_id, o6) ← readU8 data o5
    let (last_exec_lane_change_id, o7) ← readU8 data o6
    let (last_desired_lane_change_speed_mm_per_sec, o8) ← readU16 data o7 e
    let (drift, o9) ← readU8 data o8
    let (had_lane_change_activity, o10) ← readU8 data o9
    let (uphill_counter, o11) ← readU8 data o10
    let (downhill_counter, o12) ← readU8 data o11
    let (left_wheel_dist_cm, o13) ← readU8 data o12
    let (right_wheel_dist_cm, o14) ← readU8 data o13
    .ok ({ size, msg_id := msgTypeFromByte idByte,
           road_piece_idx := toI8 rpi, road_piece_idx_prev := toI8 rpiPrev,
           offset_from_road_centre_mm, last_recv_lane_change_id,
           last_exec_lane_change_id, last_desired_lane_change_speed_mm_per_sec,
           ave_follow_line_drift_pixels := toI8 drift, had_lane_change_activity,
           uphill_counter, downhill_counter, left_wheel_dist_cm,
           right_wheel_dist_cm }, o14)

inductive IntersectionCode where
  | None
  | EntryFirst
  | ExitFirst
  | EntrySecond
  | ExitSecond
deriving DecidableEq

/-- The `TryFromPrimitive` for `IntersectionCode` with the decode-site
`unwrap_or_else(|_| IntersectionCode::None)` fallback applied: total. -/
def intersectionCodeFromByte (b : Nat) : IntersectionCode :=
  if b = 0 then .None
  else if b = 1 then .EntryFirst
  else if b = 2 then .ExitFirst
  else if b = 3 then .EntrySecond
  else if b = 4 then .ExitSecond
  else .None

/-- The `offset_from_road_centre_mm : f32` is carried as its 32-bit pattern. -/
structure AnkiVehicleMsgLocalisationIntersectionUpdate where
  size : Nat
  msg_id : AnkiVehicleMsgType
  road_piece_idx : Int
  offset_from_road_centre_mm : Nat
  intersection_code : IntersectionCode
  is_exiting : Nat
  mm_since_last_transition_bar : Nat
  mm_since_last_intersection_code : Nat
deriving DecidableEq

def ANKI_VEHICLE_MSG_LOCALISATION_INTERSECTION_UPDATE_SIZE : Nat := 13

/-- The `AnkiVehicleMsgLocalisationIntersectionUpdate::try_from_ctx`. -/
def decodeLocalisationIntersectionUpdate (data : List Nat) (e : Endian) :
    Except String (AnkiVehicleMsgLocalisationIntersectionUpdate × Nat) := do
  if data.length ≠ ANKI_VEHICLE_MSG_LOCALISATION_INTERSECTION_UPDATE_SIZE then
    .error ("Incorrect num of bytes")
  else
    let (size, o1) ← readU8 data 0
    let (idByte, o2) ← readU8 data o1
    let (rpi, o3) ← readU8 data o2
    let (offset_from_road_centre_mm, o4) ← readU32 data o3 e
    let (icByte, o5) ← readU8 data o4
    let (is_exiting, o6) ← readU8 data o5
    let (mm_since_last_transition_bar, o7) ← readU16 data o6 e
    let (mm_since_last_intersection_code, o8) ← readU16 data o7 e
    .ok ({ size, msg_id := msgTypeFromByte idByte, road_piece_idx := toI8 rpi,
           offset_from_road_centre_mm,
           intersection_code := intersectionCodeFromByte icByte, is_exiting,
           mm_since_last_transition_bar, mm_since_last_intersection_code }, o8)

/-- The `offset_from_road_centre_mm : f32` is carried as its 32-bit pattern. -/
structure AnkiVehicleMsgOffsetFromRoadCentreUpdate where
  size : Nat
  msg_id : AnkiVehicleMsgType
  offset_from_road_centre_mm : Nat
  lane_change_id : Nat
deriving DecidableEq

def ANKI_VEHICLE_MSG_OFFSET_FROM_ROAD_CENTRE_UPDATE_SIZE : Nat := 7

/-- The `AnkiVehicleMsgOffsetFromRoadCentreUpdate::try_from_ctx`. -/
def decodeOffsetFromRoadCentreUpdate (data : List Nat) (e : Endian) :
    Except String (AnkiVehicleMsgOffsetFromRoadCentreUpdate × Nat) := do
  if data.length ≠ ANKI_VEHICLE_MSG_OFFSET_FROM_ROAD_CENTRE_UPDATE_SIZE then
    .error ("Incorrect num of bytes")
  else
    let (size, o1) ← readU8 data 0
    let (idByte, o2) ← readU8 data o1
    let (offset_from_road_centre_mm, o3) ← readU32 data o2 e
    let (lane_change_id, o4) ← readU8 data o3
    .ok ({ size, msg_id := msgTypeFromByte idByte,
           offset_from_road_centre_mm, lane_change_id }, o4)

structure AnkiVehicleMsgSetLights where
  size : Nat
  msg_id : AnkiVehicleMsgType
  light_mask : Nat
deriving DecidableEq

def ANKI_VEHICLE_MSG_SET_LIGHTS_SIZE : Nat := 3

/-- The `AnkiVehicleMsgSetLights::try_into_ctx`. -/
def encodeSetLights (m : AnkiVehicleMsgSetLights) (dest : List Nat)
    (_e : Endian) : Except String (List Nat × Nat) :=
  if dest.length ≠ ANKI_VEHICLE_MSG_SET_LIGHTS_SIZE then
    .error ("Not enough space available in byte array")
  else
    .ok ([m.size % 256, msgTypeToByte m.msg_id, m.light_mask % 256]
      ++ dest.drop 3, 3)

/-! ### Light configuration and lights-pattern message -/

inductive LightChannel where
  | Red
  | Tail
  | Blue
  | Green
  | FrontL
  | FrontR
  | Count
deriving DecidableEq

def lightChannelToByte : LightChannel → Nat
  | .Red => 0
  | .Tail => 1
  | .Blue => 2
  | .Green => 3
  | .FrontL => 4
  | .FrontR => 5
  | .Count => 6

inductive LightEffect where
  | Steady
  | Fade
  | Throb
  | Flash
  | Random
  | Count
deriving DecidableEq

def lightEffectToByte : LightEffect → Nat
  | .Steady => 0
  | .Fade => 1
  | .Throb => 2
  | .Flash => 3
  | .Random => 4
  | .Count => 5

structure AnkiVehicleLightConfig where
  channel : LightChannel
  effect : LightEffect
  start : Nat
  end_ : Nat
  cycles_per_10_sec : Nat
deriving DecidableEq

def LIGHT_CHANNEL_COUNT_MAX : Nat := 3
def ANKI_VEHICLE_LIGHT_CONFIG_SIZE : Nat := 5

/-- The five bytes `&AnkiVehicleLightConfig::try_into_ctx` writes, in order
(the `IntoPrimitive` conversions are infallible, so the `unwrap_or_else`
fallbacks never fire; all five writes are endian-independent `u8`s). -/
def lightConfigBytes (c : AnkiVehicleLightConfig) : List Nat :=
  [lightChannelToByte c.channel, lightEffectToByte c.effect,
   c.start % 256, c.end_ % 256, c.cycles_per_10_sec % 256]

/-- The `&AnkiVehicleLightConfig::try_into_ctx`: the guard rejects destinations
shorter than the 5-byte config or longer than the 20-byte message maximum —
not a strict equality — and the five writes land at the head of the
destination. -/
def encodeLightConfig (c : AnkiVehicleLightConfig) (dest : List Nat)
    (_e : Endian) : Except String (List Nat × Nat) :=
  if dest.length < ANKI_VEHICLE_LIGHT_CONFIG_SIZE ∨
      dest.length > ANKI_VEHICLE_MSG_MAX_SIZE then
    .error ("Invalid space requirements in byte array. data_len:"
      ++ toString dest.length)
  else
    .ok (lightConfigBytes c ++ dest.drop 5, 5)

/-- The `channel_config: [Option<AnkiVehicleLightConfig>; 3]` array is a
total map on `Fin 3`. -/
structure AnkiVehicleMsgLightsPattern where
  size : Nat
  msg_id : AnkiVehicleMsgType
  channel_count : Nat
  channel_config : Fin 3 → Option AnkiVehicleLightConfig

/-- One 5-byte slot of the pattern body: a populated slot delegates to the
light-config writer (whose own guard passes: the remaining destination
lengths at the three slots are 15, 10 and 5 bytes, all within 5..=20), an
empty slot is `[0u8; 5]`. -/
def lightSlotBytes : Option AnkiVehicleLightConfig → List Nat
  | none => [0, 0, 0, 0, 0]
  | some c => lightConfigBytes c

def ANKI_VEHICLE_MSG_LIGHTS_PATTERN_SIZE : Nat :=
  LIGHT_CHANNEL_COUNT_MAX * ANKI_VEHICLE_LIGHT_CONFIG_SIZE + 3

/-- The `AnkiVehicleMsgLightsPattern::try_into_ctx`: exact 18-byte destination,
header then the full fixed 3-slot array regardless of `channel_count`. -/
def encodeLightsPattern (m : AnkiVehicleMsgLightsPattern) (dest : List Nat)
    (_e : Endian) : Except String (List Nat × Nat) :=
  if dest.length ≠ ANKI_VEHICLE_MSG_LIGHTS_PATTERN_SIZE then
    .error ("Not enough space available in byte array")
  else
    .ok (([m.size % 256, msgTypeToByte m.msg_id, m.channel_count % 256]
      ++ lightSlotBytes (m.channel_config 0)
      ++ lightSlotBytes (m.channel_config 1)
      ++ lightSlotBytes (m.channel_config 2)) ++ dest.drop 18, 18)

inductive TrackMaterial where
  | Plastic
  | Vinyl
deriving DecidableEq

def trackMaterialToByte : TrackMaterial → Nat
  | .Plastic => 0
  | .Vinyl => 1

structure AnkiVehicleMsgSetConfigParams where
  size : Nat
  msg_id : AnkiVehicleMsgType
  super_code_parse_mask : Nat
  track_material : TrackMaterial
deriving DecidableEq

def ANKI_VEHICLE_MSG_SET_CONFIG_PARAMS_SIZE : Nat := 4

/-- The `AnkiVehicleMsgSetConfigParams::try_into_ctx`. -/
def encodeSetConfigParams (m : AnkiVehicleMsgSetConfigParams)
    (dest : List Nat) (_e : Endian) : Except String (List Nat × Nat) :=
  if dest.length ≠ ANKI_VEHICLE_MSG_SET_CONFIG_PARAMS_SIZE then
    .error ("Not enough space available in byte array")
  else
    .ok ([m.size % 256, msgTypeToByte m.msg_id, m.super_code_parse_mask % 256,
      trackMaterialToByte m.track_material] ++ dest.drop 4, 4)

/-! ### Constructor functions -/

/-- The `anki_vehicle_msg_set_sdk_mode`. -/
def anki_vehicle_msg_set_sdk_mode (on_ flags : Nat) : AnkiVehicleMsgSdkMode :=
  { size := ANKI_VEHICLE_MSG_SDK_MODE_SIZE - 1,
    msg_id := .C2VSDKMode, on_, flags }

/-- The `anki_vehicle_msg_set_speed`. -/
def anki_vehicle_msg_set_speed (speed_mm_per_sec accel_mm_per_sec2 : Int) :
    AnkiVehicleMsgSetSpeed :=
  { size := ANKI_VEHICLE_MSG_SET_SPEED_SIZE - 1,
    msg_id := .C2VSetSpeed, speed_mm_per_sec, accel_mm_per_sec2,
    respect_road_piece_speed_limit := 0 }

/-- The `anki_vehicle_msg_set_offset_from_road_centre` (argument is the `f32`
bit pattern). -/
def anki_vehicle_msg_set_offset_from_road_centre (offset_mm : Nat) :
    AnkiVehicleMsgSetOffsetFromRoadCentre :=
  { size := ANKI_VEHICLE_MSG_SET_OFFSET_FROM_ROAD_CENTRE_SIZE - 1,
    msg_id := .C2VSetOffsetFromRoadCentre, offset_mm }

/-- The `anki_vehicle_msg_change_lane` (offset argument is the `f32` bit
pattern). -/
def anki_vehicle_msg_change_lane
    (horizontal_speed_mm_per_sec horizontal_accel_mm_per_sec2 : Nat)
    (offset_from_road_centre_mm : Nat) : AnkiVehicleMsgChangeLane :=
  { size := ANKI_VEHICLE_MSG_CHANGE_LANE_SIZE - 1,
    msg_id := .C2VChangeLane, horizontal_speed_mm_per_sec,
    horizontal_accel_mm_per_sec2, offset_from_road_centre_mm,
    hop_intent := 0, tag := 0 }

/-- The `anki_vehicle_msg_set_lights`. -/
def anki_vehicle_msg_set_lights (mask : Nat) : AnkiVehicleMsgSetLights :=
  { size := ANKI_VEHICLE_MSG_SET_LIGHTS_SIZE - 1,
    msg_id := .C2VSetLights, light_mask := mask }

/-- The `anki_vehicle_light_config`: `cycles_per_min` is a `u16`, the stored
field the `u8` cast of `cycles_per_min / 6`. -/
def anki_vehicle_light_config (channel : LightChannel) (effect : LightEffect)
    (start end_ cycles_per_min : Nat) : AnkiVehicleLightConfig :=
  { channel, effect, start, end_,
    cycles_per_10_sec := cycles_per_min / 6 % 256 }

/-- The `anki_vehicle_msg_lights_pattern`: one populated slot, two empty. -/
def anki_vehicle_msg_lights_pattern (channel : LightChannel)
    (effect : LightEffect) (start end_ cycles_per_min : Nat) :
    AnkiVehicleMsgLightsPattern :=
  { size := ANKI_VEHICLE_MSG_LIGHTS_PATTERN_SIZE - 1,
    msg_id := .C2VLightsPattern,
    channel_count := 1,
    channel_config := fun i =>
      match i with
      | 0 => some { channel, effect, start, end_,
                    cycles_per_10_sec := cycles_per_min / 6 % 256 }
      | 1 => none
      | 2 => none }

/-- The `AnkiVehicleMsgLightsPattern::append`: mutation becomes a
pattern-and-returned-`u8` pair. -/
def appendPattern (p : AnkiVehicleMsgLightsPattern)
    (config : AnkiVehicleLightConfig) : AnkiVehicleMsgLightsPattern × Nat :=
  if h : p.channel_count ≥ 3 then (p, 0)
  else
    ({ p with
       channel_config :=
         Function.update p.channel_config ⟨p.channel_count, by omega⟩
           (some config),
       channel_count := p.channel_count + 1 },
     p.channel_count + 1)

/-- The `anki_vehicle_msg_turn`. -/
def anki_vehicle_msg_turn (turn_type : VehicleTurn)
    (trigger : VehicleTurnTrigger) : AnkiVehicleMsgTurn :=
  { size := ANKI_VEHICLE_MSG_TURN_SIZE - 1,
    msg_id := .C2VTurn, turn_type, trigger }

/-- The `anki_vehicle_msg_set_config_params`. -/
def anki_vehicle_msg_set_config_params (super_code_parse_mask : Nat)
    (track_material : TrackMaterial) : AnkiVehicleMsgSetConfigParams :=
  { size := ANKI_VEHICLE_MSG_SET_CONFIG_PARAMS_SIZE - 1,
    msg_id := .C2VSetConfigParams, super_code_parse_mask, track_material }

/-- The lights patterns the public API can produce: the
`anki_vehicle_msg_lights_pattern` constructor followed by any sequence of
`append` calls. -/
inductive ReachablePattern : AnkiVehicleMsgLightsPattern → Prop where
  | constructed : ∀ (ch : LightChannel) (ef : LightEffect) (s en cpm : Nat),
      ReachablePattern (anki_vehicle_msg_lights_pattern ch ef s en cpm)
  | appended : ∀ (p : AnkiVehicleMsgLightsPattern)
      (c : AnkiVehicleLightConfig), ReachablePattern p →
      ReachablePattern (appendPattern p c).1

/-- Well-formedness of a lights pattern: the populated prefix of the 3-slot
array is exactly `channel_count` long. -/
def patternWF (p : AnkiVehicleMsgLightsPattern) : Prop :=
  1 ≤ p.channel_count ∧ p.channel_count ≤ 3 ∧
  ∀ i : Fin 3, (p.channel_config i).isSome = true ↔ (i : Nat) < p.channel_count

/-! ## Theorems -/

theorem u16Bytes_length (v : Nat) (e : Endian) : (u16Bytes v e).length = 2 := by
  cases e <;> rfl

theorem u32Bytes_length (v : Nat) (e : Endian) : (u32Bytes v e).length = 4 := by
  cases e <;> rfl

theorem i16Bytes_length (v : Int) (e : Endian) : (i16Bytes v e).length = 2 := by
  cases e <;> rfl

theorem lightConfigBytes_length (c : AnkiVehicleLightConfig) :
    (lightConfigBytes c).length = 5 := rfl

theorem msgTypeFromByte_toByte (t : AnkiVehicleMsgType) :
    msgTypeFromByte (msgTypeToByte t) = t := by
  cases t <;> rfl

/-- C8: encoding the message built by `set_speed(0x7BCD, 0x7BCD)` big-endian
into any 7-byte destination yields exactly
`[0x06, 0x24, 0x7B, 0xCD, 0x7B, 0xCD, 0x00]`: size 6, the `C2VSetSpeed` tag,
the two big-endian 16-bit fields, and `respect_road_piece_speed_limit` 0. -/
theorem set_speed_concrete_encoding (dest : List Nat) (h : dest.length = 7) :
    encodeSetSpeed (anki_vehicle_msg_set_speed 0x7BCD 0x7BCD) dest .be =
      .ok ([0x06, 0x24, 0x7B, 0xCD, 0x7B, 0xCD, 0x00], 7) := by
  have hd : dest.drop 7 = [] := by
    apply List.drop_eq_nil_of_le
    omega
  simp [encodeSetSpeed, anki_vehicle_msg_set_speed, h,
    ANKI_VEHICLE_MSG_SET_SPEED_SIZE, i16Bytes, u16Bytes, hd,
    msgTypeToByte]

/-- Witness for `set_speed_concrete_encoding` at a concrete destination. -/
theorem set_speed_concrete_encoding_witness :
    encodeSetSpeed (anki_vehicle_msg_set_speed 0x7BCD 0x7BCD)
      (List.replicate 7 0) .be =
      .ok ([0x06, 0x24, 0x7B, 0xCD, 0x7B, 0xCD, 0x00], 7) :=
  set_speed_concrete_encoding (List.replicate 7 0) (by decide)

/-- C6 counterexample: at `cycles_per_min = 1536` (a legal `u16`), the
constructors store `(1536 / 6) as u8 = 0`, not the untruncated quotient
`1536 / 6 = 256`: the `as u8` cast wraps the quotient modulo 256. -/
theorem light_config_cycles_counterexample :
    (anki_vehicle_light_config .Red .Steady 0 0 1536).cycles_per_10_sec = 0 ∧
    (1536 : Nat) / 6 = 256 ∧
    (anki_vehicle_light_config .Red .Steady 0 0
        1536).cycles_per_10_sec ≠ 1536 / 6 ∧
    ((anki_vehicle_msg_lights_pattern .Red .Steady 0 0 1536).channel_config
        0).map AnkiVehicleLightConfig.cycles_per_10_sec ≠ some (1536 / 6) := by
  refine ⟨rfl, rfl, by decide, by decide⟩

/-- C6 amended: both light-configuration constructors store
`cycles_per_min / 6` reduced modulo 256 (truncating division, then the `u8`
cast) in `cycles_per_10_sec`; below 1536 cycles per minute this is exactly
the truncated quotient. -/
theorem light_config_cycles_div6 (ch : LightChannel) (ef : LightEffect)
    (s en cpm : Nat) :
    (anki_vehicle_light_config ch ef s en cpm).cycles_per_10_sec =
      cpm / 6 % 256 ∧
    (anki_vehicle_msg_lights_pattern ch ef s en cpm).channel_config 0 =
      some { channel := ch, effect := ef, start := s, end_ := en,
             cycles_per_10_sec := cpm / 6 % 256 } ∧
    (cpm < 1536 →
      (anki_vehicle_light_config ch ef s en cpm).cycles_per_10_sec =
        cpm / 6) := by
  refine ⟨rfl, rfl, fun h => ?_⟩
  show cpm / 6 % 256 = cpm / 6
  have : cpm / 6 < 256 := by omega
  exact Nat.mod_eq_of_lt this

/-- Witness for `light_config_cycles_div6` at a concrete input. -/
theorem light_config_cycles_div6_witness :
    (anki_vehicle_light_config .Red .Steady 0 0 90).cycles_per_10_sec =
      90 / 6 % 256 ∧ 90 < 1536 ∧
    (anki_vehicle_light_config .Red .Steady 0 0 90).cycles_per_10_sec =
      90 / 6 :=
  ⟨(light_config_cycles_div6 .Red .Steady 0 0 90).1, by decide,
   (light_config_cycles_div6 .Red .Steady 0 0 90).2.2 (by decide)⟩

/-- C1 counterexample: the local-name and manufacturer-data decoders accept
buffers strictly longer than their size constants (21 and 8): a 22-byte
local-name buffer and a 9-byte mfg-data buffer both decode successfully, so
"length differs from the constant" is not always rejected. -/
theorem adv_exact_size_counterexample :
    ([0xAB, 0xCD, 0xEF, 1, 2, 3, 4, 5, 108, 111, 99, 97, 108, 110, 97, 109,
        101, 116, 101, 115, 116, 0] : List Nat).length = 22 ∧
    (decodeAdvLocalName [0xAB, 0xCD, 0xEF, 1, 2, 3, 4, 5, 108, 111, 99, 97,
        108, 110, 97, 109, 101, 116, 101, 115, 116, 0] .be).isOk = true ∧
    ([0x89, 0xAB, 0xCD, 0xEF, 0xAB, 0x12, 0xCD, 0xEF, 9] : List Nat).length
        = 9 ∧
    (decodeAdvMfgData [0x89, 0xAB, 0xCD, 0xEF, 0xAB, 0x12, 0xCD, 0xEF, 9]
        .be).isOk = true := by
  refine ⟨rfl, by decide, rfl, by decide⟩

/-- C1 amended: the local-name and mfg-data decoders reject with the size
error exactly the buffers *shorter* than their constants (21 and 8) — a
longer buffer is not rejected for its length (mfg-data decodes any buffer of
at least 8 bytes; a successful local-name decode guarantees only at least 21
bytes) — while the full 47-byte advertisement decoder does enforce an exact
length match. -/
theorem adv_size_checks :
    (∀ (data : List Nat) (e : Endian),
      data.length < ANKI_VEHICLE_ADV_LOCAL_NAME_SIZE →
      decodeAdvLocalName data e = .error ("Incorrect num of bytes")) ∧
    (∀ (data : List Nat) (e : Endian),
      (decodeAdvLocalName data e).isOk = true →
      ANKI_VEHICLE_ADV_LOCAL_NAME_SIZE ≤ data.length) ∧
    (∀ (data : List Nat) (e : Endian),
      data.length < ANKI_VEHICLE_ADV_MFG_DATA_SIZE →
      decodeAdvMfgData data e = .error ("Incorrect num of bytes")) ∧
    (∀ (data : List Nat) (e : Endian),
      ANKI_VEHICLE_ADV_MFG_DATA_SIZE ≤ data.length →
      (decodeAdvMfgData data e).isOk = true) ∧
    (∀ (data : List Nat) (e : Endian),
      data.length ≠ ANKI_VEHICLE_ADV_SIZE →
      decodeAdv data e = .error ("Incorrect num of bytes")) ∧
    (∀ (data : List Nat) (e : Endian) (r : AnkiVehicleAdv × Nat),
      decodeAdv data e = .ok r → data.length = ANKI_VEHICLE_ADV_SIZE) := by
  have hLocalErr : ∀ (data : List Nat) (e : Endian),
      data.length < ANKI_VEHICLE_ADV_LOCAL_NAME_SIZE →
      decodeAdvLocalName data e = .error ("Incorrect num of bytes") := by
    intro data e h
    simp [decodeAdvLocalName, h]
  have hMfgErr : ∀ (data : List Nat) (e : Endian),
      data.length < ANKI_VEHICLE_ADV_MFG_DATA_SIZE →
      decodeAdvMfgData data e = .error ("Incorrect num of bytes") := by
    intro data e h
    simp [decodeAdvMfgData, h]
  have hAdvErr : ∀ (data : List Nat) (e : Endian),
      data.length ≠ ANKI_VEHICLE_ADV_SIZE →
      decodeAdv data e = .error ("Incorrect num of bytes") := by
    intro data e h
    simp [decodeAdv, h]
  refine ⟨hLocalErr, ?_, hMfgErr, ?_, hAdvErr, ?_⟩
  · intro data e hok
    by_contra hlt
    rw [hLocalErr data e (by omega)] at hok
    simp [Except.isOk, Except.toBool] at hok
  · intro data e h
    simp only [ANKI_VEHICLE_ADV_MFG_DATA_SIZE] at h
    have h8 : ¬ data.length < 8 := by omega
    have h4 : 4 ≤ data.length := by omega
    have h5 : 4 + 1 ≤ data.length := by omega
    have h6 : 5 + 1 ≤ data.length := by omega
    have h7 : 6 + 2 ≤ data.length := by omega
    cases e <;>
      simp [decodeAdvMfgData, ANKI_VEHICLE_ADV_MFG_DATA_SIZE, h8, readU32,
        readU8, readU16, h4, h5, h6, h7, Except.isOk, Except.toBool, bind,
        Except.bind]
  · intro data e r hok
    by_contra hne
    rw [hAdvErr data e hne] at hok
    exact Except.noConfusion hok

/-- Evaluation of the envelope decoder on a buffer of at most the maximum
size, split into its two header bytes and the rest. -/
theorem decodeMsg_cons (a b : Nat) (pl : List Nat) (e : Endian)
    (h : pl.length ≤ 18) :
    decodeMsg (a :: b :: pl) e =
      .ok ({ size := a, msg_id := msgTypeFromByte b, payload := pl },
        2 + pl.length) := by
  cases pl with
  | nil =>
    simp [decodeMsg, ANKI_VEHICLE_MSG_MAX_SIZE, ANKI_VEHICLE_MSG_BASE_SIZE,
      readU8, bind, Except.bind, List.getD]
  | cons p ps =>
    have hlen : (a :: b :: p :: ps).length = ps.length + 3 := by simp
    have h18 : ps.length ≤ 17 := by simp at h; omega
    have hng : ¬ (a :: b :: p :: ps).length > 20 := by rw [hlen]; omega
    have h01 : 0 + 1 ≤ (a :: b :: p :: ps).length := by rw [hlen]; omega
    have h11 : 1 + 1 ≤ (a :: b :: p :: ps).length := by rw [hlen]; omega
    have hgt : (a :: b :: p :: ps).length > 2 := by rw [hlen]; omega
    have hrb : 2 + ((a :: b :: p :: ps).length - 2) ≤
        (a :: b :: p :: ps).length := by rw [hlen]; omega
    simp [decodeMsg, ANKI_VEHICLE_MSG_MAX_SIZE, ANKI_VEHICLE_MSG_BASE_SIZE,
      readU8, readBytes, hng, h01, h11, hgt, hrb, bind, Except.bind,
      List.getD]
    rw [if_neg (by omega), if_pos (by omega)]

/-- C4: the byte-to-message-type mapping is total — every byte outside the
enumerated codes maps to `Unknown` — and an envelope decode of any buffer of
legal length succeeds whatever its message-type byte holds (a tag outside
the known set never causes an error). -/
theorem msg_type_leniency :
    (∀ b : Nat, b ∉ knownMsgTypeCodes → msgTypeFromByte b = .Unknown) ∧
    (∀ (data : List Nat) (e : Endian),
      ANKI_VEHICLE_MSG_BASE_SIZE ≤ data.length →
      data.length ≤ ANKI_VEHICLE_MSG_MAX_SIZE →
      (decodeMsg data e).isOk = true) := by
  constructor
  · intro b hb
    simp only [knownMsgTypeCodes, List.mem_cons, List.not_mem_nil,
      or_false] at hb
    push_neg at hb
    obtain ⟨h1, h2, h3, h4, h5, h6, h7, h8, h9, h10, h11, h12, h13, h14,
      h15, h16, h17, h18, h19, h20, h21, h22⟩ := hb
    simp [msgTypeFromByte, h1, h2, h3, h4, h5, h6, h7, h8, h9, h10, h11,
      h12, h13, h14, h15, h16, h17, h18, h19, h20, h21, h22]
  · intro data e hlo hhi
    simp only [ANKI_VEHICLE_MSG_BASE_SIZE] at hlo
    simp only [ANKI_VEHICLE_MSG_MAX_SIZE] at hhi
    rcases data with _ | ⟨a, _ | ⟨b, pl⟩⟩
    · simp at hlo
    · simp at hlo
    · rw [decodeMsg_cons a b pl e (by simp at hhi; omega)]
      simp [Except.isOk, Except.toBool]

/-- Witness for `msg_type_leniency`: byte `0x99` is unmapped and a message
carrying it still decodes. -/
theorem msg_type_leniency_witness :
    msgTypeFromByte 0x99 = .Unknown ∧
    (decodeMsg [9, 0x99, 7] .be).isOk = true :=
  ⟨msg_type_leniency.1 0x99 (by decide),
   msg_type_leniency.2 [9, 0x99, 7] .be (by decide) (by decide)⟩

/-- C7: the envelope decoder errors on every buffer longer than 20 bytes;
succeeds with an empty payload on exactly 2 bytes; and on 3 to 20 bytes
succeeds with the payload equal to everything after the 2-byte header. -/
theorem envelope_decode_sizes :
    (∀ (data : List Nat) (e : Endian),
      ANKI_VEHICLE_MSG_MAX_SIZE < data.length →
      decodeMsg data e = .error ("Incorrect num of bytes")) ∧
    (∀ (data : List Nat) (e : Endian), data.length = 2 →
      ∃ m, decodeMsg data e = .ok (m, 2) ∧ m.payload = []) ∧
    (∀ (data : List Nat) (e : Endian), 3 ≤ data.length → data.length ≤ 20 →
      ∃ m, decodeMsg data e = .ok (m, data.length) ∧
        m.payload = data.drop 2 ∧ m.size = data.getD 0 0 ∧
        m.msg_id = msgTypeFromByte (data.getD 1 0)) := by
  refine ⟨?_, ?_, ?_⟩
  · intro data e h
    simp only [ANKI_VEHICLE_MSG_MAX_SIZE] at h
    simp [decodeMsg, ANKI_VEHICLE_MSG_MAX_SIZE, h]
  · intro data e h
    rcases data with _ | ⟨a, _ | ⟨b, pl⟩⟩
    · simp at h
    · simp at h
    · have hpl : pl = [] := by simpa using h
      subst hpl
      exact ⟨_, decodeMsg_cons a b [] e (by simp), rfl⟩
  · intro data e hlo hhi
    rcases data with _ | ⟨a, _ | ⟨b, pl⟩⟩
    · simp at hlo
    · simp at hlo
    · have hp18 : pl.length ≤ 18 := by simp at hhi; omega
      refine ⟨{ size := a, msg_id := msgTypeFromByte b, payload := pl },
        ?_, rfl, rfl, rfl⟩
      rw [decodeMsg_cons a b pl e hp18]
      simp only [Except.ok.injEq, Prod.mk.injEq, List.length_cons]
      exact ⟨trivial, by omega⟩

/-- Witness for `envelope_decode_sizes` at a 21-byte, a 2-byte and a 4-byte
input. -/
theorem envelope_decode_sizes_witness :
    decodeMsg (List.replicate 21 0) .be = .error ("Incorrect num of bytes") ∧
    (∃ m, decodeMsg [1, 22] .be = .ok (m, 2) ∧ m.payload = []) ∧
    (∃ m, decodeMsg [3, 0x19, 0xAB, 0xCD] .be = .ok (m, 4) ∧
      m.payload = [0xAB, 0xCD] ∧ m.size = 3 ∧
      m.msg_id = msgTypeFromByte 0x19) :=
  ⟨envelope_decode_sizes.1 (List.replicate 21 0) .be (by decide),
   envelope_decode_sizes.2.1 [1, 22] .be (by decide),
   envelope_decode_sizes.2.2 [3, 0x19, 0xAB, 0xCD] .be (by decide)
     (by decide)⟩

/-- C3: round-trip for the envelope message — the one message type the
source equips with both an encoder and a decoder — under either endianness:
decoding the encoder's output buffer recovers the message exactly, for every
legal field assignment (`size` a `u8` value, payload within the 18-byte
maximum). -/
theorem envelope_roundtrip (m : AnkiVehicleMsg) (e : Endian)
    (dest : List Nat) (hsz : m.size < 256)
    (hpl : m.payload.length ≤ ANKI_VEHICLE_MSG_PAYLOAD_MAX_SIZE)
    (hd : dest.length = ANKI_VEHICLE_MSG_BASE_SIZE + m.payload.length) :
    ∃ out, encodeMsg m dest e = .ok (out, 2 + m.payload.length) ∧
      decodeMsg out e = .ok (m, out.length) := by
  obtain ⟨sz, id, pl⟩ := m
  simp only [ANKI_VEHICLE_MSG_PAYLOAD_MAX_SIZE] at hpl
  refine ⟨sz % 256 :: msgTypeToByte id :: pl, ?_, ?_⟩
  · simp only [encodeMsg]
    rw [if_neg (by rw [hd]; simp)]
  · rw [decodeMsg_cons _ _ _ _ hpl]
    simp only [Except.ok.injEq, Prod.mk.injEq, AnkiVehicleMsg.mk.injEq,
      List.length_cons]
    refine ⟨⟨Nat.mod_eq_of_lt hsz, msgTypeFromByte_toByte id, ?_⟩, by omega⟩
    trivial

/-- Witness for `envelope_roundtrip`: a version-response envelope
round-trips under both endianness settings. -/
theorem envelope_roundtrip_witness :
    (∃ out,
      encodeMsg ⟨3, .V2CVersionResponse, [0xAB, 0xCD]⟩
        (List.replicate 4 0) .be = .ok (out, 2 + 2) ∧
      decodeMsg out .be =
        .ok (⟨3, .V2CVersionResponse, [0xAB, 0xCD]⟩, out.length)) ∧
    (∃ out,
      encodeMsg ⟨3, .V2CVersionResponse, [0xAB, 0xCD]⟩
        (List.replicate 4 0) .le = .ok (out, 2 + 2) ∧
      decodeMsg out .le =
        .ok (⟨3, .V2CVersionResponse, [0xAB, 0xCD]⟩, out.length)) :=
  ⟨envelope_roundtrip _ .be (List.replicate 4 0) (by decide) (by decide)
     (by decide),
   envelope_roundtrip _ .le (List.replicate 4 0) (by decide) (by decide)
     (by decide)⟩

/-- C2: every concrete message type's codec enforces its static size
constant: each encoder accepts exactly destinations of that length and
returns the constant as the written offset, and each decoder rejects with
the size-mismatch error every buffer whose length differs from the constant
(the SDK-mode encoder's guard textually names the battery-response constant,
which has the same value 4 as its own). -/
theorem concrete_msg_size_invariant :
    (∀ (m : _) (dest : List Nat) (e : Endian),
      ((encodeSdkMode m dest e).isOk = true ↔ dest.length = ANKI_VEHICLE_MSG_SDK_MODE_SIZE) ∧
      ∀ out n, encodeSdkMode m dest e = .ok (out, n) → n = ANKI_VEHICLE_MSG_SDK_MODE_SIZE) ∧
    (∀ (m : _) (dest : List Nat) (e : Endian),
      ((encodeSetSpeed m dest e).isOk = true ↔ dest.length = ANKI_VEHICLE_MSG_SET_SPEED_SIZE) ∧
      ∀ out n, encodeSetSpeed m dest e = .ok (out, n) → n = ANKI_VEHICLE_MSG_SET_SPEED_SIZE) ∧
    (∀ (m : _) (dest : List Nat) (e : Endian),
      ((encodeTurn m dest e).isOk = true ↔ dest.length = ANKI_VEHICLE_MSG_TURN_SIZE) ∧
      ∀ out n, encodeTurn m dest e = .ok (out, n) → n = ANKI_VEHICLE_MSG_TURN_SIZE) ∧
    (∀ (m : _) (dest : List Nat) (e : Endian),
      ((encodeSetOffsetFromRoadCentre m dest e).isOk = true ↔ dest.length = ANKI_VEHICLE_MSG_SET_OFFSET_FROM_ROAD_CENTRE_SIZE) ∧
      ∀ out n, encodeSetOffsetFromRoadCentre m dest e = .ok (out, n) → n = ANKI_VEHICLE_MSG_SET_OFFSET_FROM_ROAD_CENTRE_SIZE) ∧
    (∀ (m : _) (dest : List Nat) (e : Endian),
      ((encodeChangeLane m dest e).isOk = true ↔ dest.length = ANKI_VEHICLE_MSG_CHANGE_LANE_SIZE) ∧
      ∀ out n, encodeChangeLane m dest e = .ok (out, n) → n = ANKI_VEHICLE_MSG_CHANGE_LANE_SIZE) ∧
    (∀ (m : _) (dest : List Nat) (e : Endian),
      ((encodeSetLights m dest e).isOk = true ↔ dest.length = ANKI_VEHICLE_MSG_SET_LIGHTS_SIZE) ∧
      ∀ out n, encodeSetLights m dest e = .ok (out, n) → n = ANKI_VEHICLE_MSG_SET_LIGHTS_SIZE) ∧
    (∀ (m : _) (dest : List Nat) (e : Endian),
      ((encodeLightsPattern m dest e).isOk = true ↔ dest.length = ANKI_VEHICLE_MSG_LIGHTS_PATTERN_SIZE) ∧
      ∀ out n, encodeLightsPattern m dest e = .ok (out, n) → n = ANKI_VEHICLE_MSG_LIGHTS_PATTERN_SIZE) ∧
    (∀ (m : _) (dest : List Nat) (e : Endian),
      ((encodeSetConfigParams m dest e).isOk = true ↔ dest.length = ANKI_VEHICLE_MSG_SET_CONFIG_PARAMS_SIZE) ∧
      ∀ out n, encodeSetConfigParams m dest e = .ok (out, n) → n = ANKI_VEHICLE_MSG_SET_CONFIG_PARAMS_SIZE) ∧
    (∀ (data : List Nat) (e : Endian), data.length ≠ ANKI_VEHICLE_MSG_VERSION_RESPONSE_SIZE →
      decodeVersionResponse data e = .error ("Incorrect num of bytes")) ∧
    (∀ (data : List Nat) (e : Endian), data.length ≠ ANKI_VEHICLE_MSG_BATTERY_LEVEL_RESPONSE_SIZE →
      decodeBatteryLevelResponse data e = .error ("Incorrect num of bytes")) ∧
    (∀ (data : List Nat) (e : Endian), data.length ≠ ANKI_VEHICLE_MSG_LOCALISATION_POSITION_UPDATE_SIZE →
      decodeLocalisationPositionUpdate data e = .error ("Incorrect num of bytes")) ∧
    (∀ (data : List Nat) (e : Endian), data.length ≠ ANKI_VEHICLE_MSG_LOCALISATION_TRANSITION_UPDATE_SIZE →
      decodeLocalisationTransitionUpdate data e = .error ("Incorrect num of bytes")) ∧
    (∀ (data : List Nat) (e : Endian), data.length ≠ ANKI_VEHICLE_MSG_LOCALISATION_INTERSECTION_UPDATE_SIZE →
      decodeLocalisationIntersectionUpdate data e = .error ("Incorrect num of bytes")) ∧
    (∀ (data : List Nat) (e : Endian), data.length ≠ ANKI_VEHICLE_MSG_OFFSET_FROM_ROAD_CENTRE_UPDATE_SIZE →
      decodeOffsetFromRoadCentreUpdate data e = .error ("Incorrect num of bytes")) := by
  refine ⟨?_, ?_, ?_, ?_, ?_, ?_, ?_, ?_, ?_, ?_, ?_, ?_, ?_, ?_⟩
  · intro m dest e
    refine ⟨?_, fun out n h => ?_⟩
    · by_cases hc : dest.length = 4 <;>
        simp [encodeSdkMode, ANKI_VEHICLE_MSG_SDK_MODE_SIZE, ANKI_VEHICLE_MSG_BATTERY_LEVEL_RESPONSE_SIZE, hc, Except.isOk, Except.toBool]
    · by_cases hc : dest.length = 4
      · simp [encodeSdkMode, ANKI_VEHICLE_MSG_SDK_MODE_SIZE, ANKI_VEHICLE_MSG_BATTERY_LEVEL_RESPONSE_SIZE, hc] at h
        obtain ⟨-, hn⟩ := h
        simp only [ANKI_VEHICLE_MSG_SDK_MODE_SIZE, ANKI_VEHICLE_MSG_BATTERY_LEVEL_RESPONSE_SIZE]
        omega
      · simp [encodeSdkMode, ANKI_VEHICLE_MSG_SDK_MODE_SIZE, ANKI_VEHICLE_MSG_BATTERY_LEVEL_RESPONSE_SIZE, hc] at h
  · intro m dest e
    refine ⟨?_, fun out n h => ?_⟩
    · by_cases hc : dest.length = 7 <;>
        simp [encodeSetSpeed, ANKI_VEHICLE_MSG_SET_SPEED_SIZE, hc, Except.isOk, Except.toBool]
    · by_cases hc : dest.length = 7
      · simp [encodeSetSpeed, ANKI_VEHICLE_MSG_SET_SPEED_SIZE, hc] at h
        obtain ⟨-, hn⟩ := h
        simp only [ANKI_VEHICLE_MSG_SET_SPEED_SIZE]
        omega
      · simp [encodeSetSpeed, ANKI_VEHICLE_MSG_SET_SPEED_SIZE, hc] at h
  · intro m dest e
    refine ⟨?_, fun out n h => ?_⟩
    · by_cases hc : dest.length = 4 <;>
        simp [encodeTurn, ANKI_VEHICLE_MSG_TURN_SIZE, hc, Except.isOk, Except.toBool]
    · by_cases hc : dest.length = 4
      · simp [encodeTurn, ANKI_VEHICLE_MSG_TURN_SIZE, hc] at h
        obtain ⟨-, hn⟩ := h
        simp only [ANKI_VEHICLE_MSG_TURN_SIZE]
        omega
      · simp [encodeTurn, ANKI_VEHICLE_MSG_TURN_SIZE, hc] at h
  · intro m dest e
    refine ⟨?_, fun out n h => ?_⟩
    · by_cases hc : dest.length = 6 <;>
        simp [encodeSetOffsetFromRoadCentre, ANKI_VEHICLE_MSG_SET_OFFSET_FROM_ROAD_CENTRE_SIZE, hc, Except.isOk, Except.toBool]
    · by_cases hc : dest.length = 6
      · simp [encodeSetOffsetFromRoadCentre, ANKI_VEHICLE_MSG_SET_OFFSET_FROM_ROAD_CENTRE_SIZE, hc] at h
        obtain ⟨-, hn⟩ := h
        simp only [ANKI_VEHICLE_MSG_SET_OFFSET_FROM_ROAD_CENTRE_SIZE]
        omega
      · simp [encodeSetOffsetFromRoadCentre, ANKI_VEHICLE_MSG_SET_OFFSET_FROM_ROAD_CENTRE_SIZE, hc] at h
  · intro m dest e
    refine ⟨?_, fun out n h => ?_⟩
    · by_cases hc : dest.length = 12 <;>
        simp [encodeChangeLane, ANKI_VEHICLE_MSG_CHANGE_LANE_SIZE, hc, Except.isOk, Except.toBool]
    · by_cases hc : dest.length = 12
      · simp [encodeChangeLane, ANKI_VEHICLE_MSG_CHANGE_LANE_SIZE, hc] at h
        obtain ⟨-, hn⟩ := h
        simp only [ANKI_VEHICLE_MSG_CHANGE_LANE_SIZE]
        omega
      · simp [encodeChangeLane, ANKI_VEHICLE_MSG_CHANGE_LANE_SIZE, hc] at h
  · intro m dest e
    refine ⟨?_, fun out n h => ?_⟩
    · by_cases hc : dest.length = 3 <;>
        simp [encodeSetLights, ANKI_VEHICLE_MSG_SET_LIGHTS_SIZE, hc, Except.isOk, Except.toBool]
    · by_cases hc : dest.length = 3
      · simp [encodeSetLights, ANKI_VEHICLE_MSG_SET_LIGHTS_SIZE, hc] at h
        obtain ⟨-, hn⟩ := h
        simp only [ANKI_VEHICLE_MSG_SET_LIGHTS_SIZE]
        omega
      · simp [encodeSetLights, ANKI_VEHICLE_MSG_SET_LIGHTS_SIZE, hc] at h
  · intro m dest e
    refine ⟨?_, fun out n h => ?_⟩
    · by_cases hc : dest.length = 18 <;>
        simp [encodeLightsPattern, ANKI_VEHICLE_MSG_LIGHTS_PATTERN_SIZE, LIGHT_CHANNEL_COUNT_MAX, ANKI_VEHICLE_LIGHT_CONFIG_SIZE, hc, Except.isOk, Except.toBool]
    · by_cases hc : dest.length = 18
      · simp [encodeLightsPattern, ANKI_VEHICLE_MSG_LIGHTS_PATTERN_SIZE, LIGHT_CHANNEL_COUNT_MAX, ANKI_VEHICLE_LIGHT_CONFIG_SIZE, hc] at h
        obtain ⟨-, hn⟩ := h
        simp only [ANKI_VEHICLE_MSG_LIGHTS_PATTERN_SIZE, LIGHT_CHANNEL_COUNT_MAX, ANKI_VEHICLE_LIGHT_CONFIG_SIZE]
        omega
      · simp [encodeLightsPattern, ANKI_VEHICLE_MSG_LIGHTS_PATTERN_SIZE, LIGHT_CHANNEL_COUNT_MAX, ANKI_VEHICLE_LIGHT_CONFIG_SIZE, hc] at h
  · intro m dest e
    refine ⟨?_, fun out n h => ?_⟩
    · by_cases hc : dest.length = 4 <;>
        simp [encodeSetConfigParams, ANKI_VEHICLE_MSG_SET_CONFIG_PARAMS_SIZE, hc, Except.isOk, Except.toBool]
    · by_cases hc : dest.length = 4
      · simp [encodeSetConfigParams, ANKI_VEHICLE_MSG_SET_CONFIG_PARAMS_SIZE, hc] at h
        obtain ⟨-, hn⟩ := h
        simp only [ANKI_VEHICLE_MSG_SET_CONFIG_PARAMS_SIZE]
        omega
      · simp [encodeSetConfigParams, ANKI_VEHICLE_MSG_SET_CONFIG_PARAMS_SIZE, hc] at h
  · intro data e h
    simp only [ANKI_VEHICLE_MSG_VERSION_RESPONSE_SIZE] at h
    simp [decodeVersionResponse, ANKI_VEHICLE_MSG_VERSION_RESPONSE_SIZE, h]
  · intro data e h
    simp only [ANKI_VEHICLE_MSG_BATTERY_LEVEL_RESPONSE_SIZE] at h
    simp [decodeBatteryLevelResponse, ANKI_VEHICLE_MSG_BATTERY_LEVEL_RESPONSE_SIZE, h]
  · intro data e h
    simp only [ANKI_VEHICLE_MSG_LOCALISATION_POSITION_UPDATE_SIZE] at h
    simp [decodeLocalisationPositionUpdate, ANKI_VEHICLE_MSG_LOCALISATION_POSITION_UPDATE_SIZE, h]
  · intro data e h
    simp only [ANKI_VEHICLE_MSG_LOCALISATION_TRANSITION_UPDATE_SIZE] at h
    simp [decodeLocalisationTransitionUpdate, ANKI_VEHICLE_MSG_LOCALISATION_TRANSITION_UPDATE_SIZE, h]
  · intro data e h
    simp only [ANKI_VEHICLE_MSG_LOCALISATION_INTERSECTION_UPDATE_SIZE] at h
    simp [decodeLocalisationIntersectionUpdate, ANKI_VEHICLE_MSG_LOCALISATION_INTERSECTION_UPDATE_SIZE, h]
  · intro data e h
    simp only [ANKI_VEHICLE_MSG_OFFSET_FROM_ROAD_CENTRE_UPDATE_SIZE] at h
    simp [decodeOffsetFromRoadCentreUpdate, ANKI_VEHICLE_MSG_OFFSET_FROM_ROAD_CENTRE_UPDATE_SIZE, h]

/-- Witness for `concrete_msg_size_invariant`: a 4-byte SDK-mode encode
succeeds; set-speed encodes into 6- and 8-byte destinations (one byte short,
one byte long) fail; position updates of 16 and 18 bytes and a 3-byte
version response are rejected with the size error. -/
theorem concrete_msg_size_invariant_witness :
    (encodeSdkMode (anki_vehicle_msg_set_sdk_mode 1 1)
      (List.replicate 4 0) .be).isOk = true ∧
    (encodeSetSpeed (anki_vehicle_msg_set_speed 100 100)
      (List.replicate 6 0) .be).isOk = false ∧
    (encodeSetSpeed (anki_vehicle_msg_set_speed 100 100)
      (List.replicate 8 0) .be).isOk = false ∧
    decodeLocalisationPositionUpdate (List.replicate 16 0) .be =
      .error ("Incorrect num of bytes") ∧
    decodeLocalisationPositionUpdate (List.replicate 18 0) .be =
      .error ("Incorrect num of bytes") ∧
    decodeVersionResponse [1, 2, 3] .be = .error ("Incorrect num of bytes") := by
  obtain ⟨hSdk, hSpeed, hTurn, hOff, hLane, hLights, hPat, hCfg,
    hVer, hBat, hPos, hTrans, hInter, hOffU⟩ := concrete_msg_size_invariant
  refine ⟨(hSdk _ _ .be).1.mpr (by decide), ?_, ?_,
    hPos _ .be (by decide), hPos _ .be (by decide), hVer _ .be (by decide)⟩
  · rw [← Bool.not_eq_true]
    exact fun hh => absurd ((hSpeed (anki_vehicle_msg_set_speed 100 100)
      (List.replicate 6 0) .be).1.mp hh) (by decide)
  · rw [← Bool.not_eq_true]
    exact fun hh => absurd ((hSpeed (anki_vehicle_msg_set_speed 100 100)
      (List.replicate 8 0) .be).1.mp hh) (by decide)

/-- C5: `append` on a pattern that already holds 3 channel configurations
returns 0 and leaves the pattern unchanged; and a freshly constructed
single-channel pattern encodes (into the mandatory 18-byte destination) to
exactly 18 bytes whose last two 5-byte channel slots are all zero. -/
theorem lights_pattern_capacity :
    (∀ (p : AnkiVehicleMsgLightsPattern) (c : AnkiVehicleLightConfig),
      p.channel_count = 3 → appendPattern p c = (p, 0)) ∧
    (∀ (ch : LightChannel) (ef : LightEffect) (s en cpm : Nat)
      (dest : List Nat) (e : Endian),
      dest.length = ANKI_VEHICLE_MSG_LIGHTS_PATTERN_SIZE →
      (encodeLightsPattern (anki_vehicle_msg_lights_pattern ch ef s en cpm)
        dest e).isOk = true ∧
      ∀ out n,
        encodeLightsPattern (anki_vehicle_msg_lights_pattern ch ef s en cpm)
          dest e = .ok (out, n) →
        n = 18 ∧ out.length = 18 ∧ out.drop 8 = List.replicate 10 0) := by
  constructor
  · intro p c h
    simp [appendPattern, h]
  · intro ch ef s en cpm dest e hd
    simp only [ANKI_VEHICLE_MSG_LIGHTS_PATTERN_SIZE, LIGHT_CHANNEL_COUNT_MAX,
      ANKI_VEHICLE_LIGHT_CONFIG_SIZE] at hd
    have hdrop : dest.drop 18 = [] := List.drop_eq_nil_of_le (by omega)
    have h0 : (anki_vehicle_msg_lights_pattern ch ef s en cpm).channel_config
        0 = some { channel := ch, effect := ef, start := s, end_ := en,
                   cycles_per_10_sec := cpm / 6 % 256 } := rfl
    have h1 : (anki_vehicle_msg_lights_pattern ch ef s en cpm).channel_config
        1 = none := rfl
    have h2 : (anki_vehicle_msg_lights_pattern ch ef s en cpm).channel_config
        2 = none := rfl
    have hrep : List.replicate 10 (0 : Nat) =
        [0, 0, 0, 0, 0, 0, 0, 0, 0, 0] := rfl
    constructor
    · simp [encodeLightsPattern, ANKI_VEHICLE_MSG_LIGHTS_PATTERN_SIZE,
        LIGHT_CHANNEL_COUNT_MAX, ANKI_VEHICLE_LIGHT_CONFIG_SIZE, hd,
        Except.isOk, Except.toBool]
    · intro out n h
      simp [encodeLightsPattern, ANKI_VEHICLE_MSG_LIGHTS_PATTERN_SIZE,
        LIGHT_CHANNEL_COUNT_MAX, ANKI_VEHICLE_LIGHT_CONFIG_SIZE, hd, h0, h1,
        h2, lightSlotBytes, lightConfigBytes, hdrop,
        anki_vehicle_msg_lights_pattern] at h
      obtain ⟨ho, hn⟩ := h
      subst ho
      refine ⟨by omega, by simp, ?_⟩
      rw [hrep]
      rfl

/-- Witness for `lights_pattern_capacity`: a full 3-channel pattern is left
unchanged by `append`, and a concrete fresh pattern encodes to 18 bytes with
two all-zero trailing slots. -/
theorem lights_pattern_capacity_witness :
    appendPattern
      ((appendPattern
        ((appendPattern (anki_vehicle_msg_lights_pattern .Red .Steady 1 2 60)
          (anki_vehicle_light_config .Tail .Fade 3 4 60)).1)
        (anki_vehicle_light_config .Blue .Throb 5 6 60)).1)
      (anki_vehicle_light_config .Green .Flash 7 8 60) =
      ((appendPattern
        ((appendPattern (anki_vehicle_msg_lights_pattern .Red .Steady 1 2 60)
          (anki_vehicle_light_config .Tail .Fade 3 4 60)).1)
        (anki_vehicle_light_config .Blue .Throb 5 6 60)).1, 0) ∧
    (encodeLightsPattern (anki_vehicle_msg_lights_pattern .Red .Steady 1 2 60)
      (List.replicate 18 0) .be).isOk = true :=
  ⟨lights_pattern_capacity.1 _ _ (by rfl),
   (lights_pattern_capacity.2 .Red .Steady 1 2 60 (List.replicate 18 0) .be
     (by decide)).1⟩

/-- C9: encoding a standalone 5-byte light-channel configuration succeeds
for every destination of length 5 through 20 inclusive — an exact 5-byte
destination is not required — writing its five bytes at the head of the
buffer and leaving the remainder untouched, and fails exactly when the
destination is shorter than 5 or longer than 20 bytes. -/
theorem light_config_encode_range (c : AnkiVehicleLightConfig)
    (dest : List Nat) (e : Endian) :
    ((encodeLightConfig c dest e).isOk = true ↔
      (ANKI_VEHICLE_LIGHT_CONFIG_SIZE ≤ dest.length ∧
       dest.length ≤ ANKI_VEHICLE_MSG_MAX_SIZE)) ∧
    (∀ out n, encodeLightConfig c dest e = .ok (out, n) →
      n = ANKI_VEHICLE_LIGHT_CONFIG_SIZE ∧
      out.take 5 = lightConfigBytes c ∧ out.drop 5 = dest.drop 5 ∧
      out.length = dest.length) := by
  constructor
  · by_cases hc : dest.length < 5 ∨ dest.length > 20 <;>
      ·  simp [encodeLightConfig, ANKI_VEHICLE_LIGHT_CONFIG_SIZE,
           ANKI_VEHICLE_MSG_MAX_SIZE, hc, Except.isOk, Except.toBool]
         omega
  · intro out n h
    by_cases hc : dest.length < 5 ∨ dest.length > 20
    · simp [encodeLightConfig, ANKI_VEHICLE_LIGHT_CONFIG_SIZE,
        ANKI_VEHICLE_MSG_MAX_SIZE, hc] at h
    · simp [encodeLightConfig, ANKI_VEHICLE_LIGHT_CONFIG_SIZE,
        ANKI_VEHICLE_MSG_MAX_SIZE, hc] at h
      obtain ⟨ho, hn⟩ := h
      subst ho
      have h5 : (lightConfigBytes c).length = 5 := lightConfigBytes_length c
      refine ⟨by simp [ANKI_VEHICLE_LIGHT_CONFIG_SIZE]; omega, ?_, ?_, ?_⟩
      · rw [show (5 : Nat) = (lightConfigBytes c).length from h5.symm]
        exact List.take_left _ _
      · rw [show (5 : Nat) = (lightConfigBytes c).length from h5.symm]
        exact List.drop_left _ _
      · simp [h5]
        omega

/-- Witness for `light_config_encode_range`: a 12-byte destination (neither
5 nor outside 5..20) is accepted and the five config bytes land at its
head. -/
theorem light_config_encode_range_witness :
    ((encodeLightConfig (anki_vehicle_light_config .Red .Steady 1 2 60)
      (List.replicate 12 7) .be).isOk = true) ∧
    ((5 : Nat) = ANKI_VEHICLE_LIGHT_CONFIG_SIZE ∧
     ([0, 0, 1, 2, 10, 7, 7, 7, 7, 7, 7, 7] : List Nat).take 5 =
       lightConfigBytes (anki_vehicle_light_config .Red .Steady 1 2 60) ∧
     ([0, 0, 1, 2, 10, 7, 7, 7, 7, 7, 7, 7] : List Nat).drop 5 =
       (List.replicate 12 (7 : Nat)).drop 5 ∧
     ([0, 0, 1, 2, 10, 7, 7, 7, 7, 7, 7, 7] : List Nat).length =
       (List.replicate 12 (7 : Nat)).length) :=
  ⟨(light_config_encode_range (anki_vehicle_light_config .Red .Steady 1 2 60)
      (List.replicate 12 7) .be).1.mpr (by decide),
   (light_config_encode_range (anki_vehicle_light_config .Red .Steady 1 2 60)
      (List.replicate 12 7) .be).2 [0, 0, 1, 2, 10, 7, 7, 7, 7, 7, 7, 7] 5
      (by decide)⟩

/-- C10: every pattern obtained from the constructor followed by any
sequence of `append` calls keeps `channel_count` between 1 and 3 with
exactly the first `channel_count` slots populated, and every successful
`append` (non-zero return) returns the new channel count, a value between 2
and 3. -/
theorem reachable_pattern_invariant :
    (∀ p, ReachablePattern p → patternWF p) ∧
    (∀ p (c : AnkiVehicleLightConfig), ReachablePattern p →
      (appendPattern p c).2 ≠ 0 →
      2 ≤ (appendPattern p c).2 ∧ (appendPattern p c).2 ≤ 3 ∧
      (appendPattern p c).2 = (appendPattern p c).1.channel_count) := by
  have hWF : ∀ p, ReachablePattern p → patternWF p := by
    intro p hp
    induction hp with
    | constructed ch ef s en cpm =>
      refine ⟨by simp [anki_vehicle_msg_lights_pattern],
        by simp [anki_vehicle_msg_lights_pattern], ?_⟩
      intro i
      fin_cases i <;> simp [anki_vehicle_msg_lights_pattern]
    | appended p c hp ih =>
      obtain ⟨h1, h2, hcfg⟩ := ih
      by_cases h3 : p.channel_count ≥ 3
      · simpa [appendPattern, h3] using ⟨h1, h2, hcfg⟩
      · have hc1 : (appendPattern p c).1.channel_count =
            p.channel_count + 1 := by simp [appendPattern, h3]
        have hcC : (appendPattern p c).1.channel_config =
            Function.update p.channel_config ⟨p.channel_count, by omega⟩
              (some c) := by simp [appendPattern, h3]
        refine ⟨by rw [hc1]; omega, by rw [hc1]; omega, ?_⟩
        intro i
        rw [hc1, hcC, Function.update_apply]
        by_cases hia : (i : Nat) = p.channel_count
        · have hie : i = ⟨p.channel_count, by omega⟩ := Fin.ext hia
          simp [hie]
        · rw [if_neg (fun hh => hia (by rw [hh]))]
          rw [hcfg i]
          omega
  refine ⟨hWF, ?_⟩
  intro p c hp hne
  obtain ⟨h1, h2, -⟩ := hWF p hp
  by_cases h3 : p.channel_count ≥ 3
  · exact absurd (by simp [appendPattern, h3]) hne
  · have hv : (appendPattern p c).2 = p.channel_count + 1 := by
      simp [appendPattern, h3]
    have hc1 : (appendPattern p c).1.channel_count = p.channel_count + 1 := by
      simp [appendPattern, h3]
    rw [hv, hc1]
    exact ⟨by omega, by omega, rfl⟩

/-- Witness for `reachable_pattern_invariant`: a freshly constructed
pattern satisfies the invariant and its first `append` returns 2. -/
theorem reachable_pattern_invariant_witness :
    patternWF (anki_vehicle_msg_lights_pattern .Red .Steady 1 2 60) ∧
    (2 ≤ (appendPattern (anki_vehicle_msg_lights_pattern .Red .Steady 1 2 60)
        (anki_vehicle_light_config .Tail .Fade 3 4 60)).2 ∧
     (appendPattern (anki_vehicle_msg_lights_pattern .Red .Steady 1 2 60)
        (anki_vehicle_light_config .Tail .Fade 3 4 60)).2 ≤ 3 ∧
     (appendPattern (anki_vehicle_msg_lights_pattern .Red .Steady 1 2 60)
        (anki_vehicle_light_config .Tail .Fade 3 4 60)).2 =
       (appendPattern (anki_vehicle_msg_lights_pattern .Red .Steady 1 2 60)
        (anki_vehicle_light_config .Tail .Fade 3 4 60)).1.channel_count) :=
  ⟨reachable_pattern_invariant.1 _
     (ReachablePattern.constructed .Red .Steady 1 2 60),
   reachable_pattern_invariant.2 _ _
     (ReachablePattern.constructed .Red .Steady 1 2 60) (by decide)⟩
